import Mathlib

/-!
Shallow embedding of the form validation and submission pipeline of
src/script.js (the FormHandler class and its helper functions
formatPhoneNumber / isValidEmail), together with proofs about the
claims on that pipeline.

Strings are modelled by Lean strings; DOM state relevant to the pipeline
(per-field error class, inline error elements, the submit button state,
notification banners, the success modal) is modelled by explicit record
fields.  The asynchronous network call is modelled by a Bool parameter
giving its outcome (true = resolved, false = rejected or threw; both of
the latter reach the same catch block).
-/

namespace CreditFix

/--
A single form input as FormHandler sees it:
the static part (name, the DOM type attribute, the required attribute),
the live value, and the per-field UI error state that
showFieldError / clearFieldError (src/script.js lines 436-454) mutate:
the `error` CSS class on the input and the list of `.field-error`
elements appended to the field's parent node, in document order.
-/
structure Field where
  name : String
  fieldType : String
  required : Bool
  value : String
  hasErrorClass : Bool
  errors : List String
deriving DecidableEq

/-- The four inputs that the validation verdict may depend on. -/
def Field.core (f : Field) : String × String × Bool × String :=
  (f.name, f.fieldType, f.required, f.value)

/--
JavaScript String.prototype.trim: remove leading and trailing
whitespace (modelled with Char.isWhitespace).
-/
def jsTrim (s : String) : String :=
  String.mk (((s.toList.dropWhile Char.isWhitespace).reverse.dropWhile
      Char.isWhitespace).reverse)

/-- A character admitted by the regex character class `[^\s@]`. -/
def isEmailChar (c : Char) : Bool :=
  !c.isWhitespace && c != '@'

/--
isValidEmail (src/script.js lines 94-97): test against the regex
`^[^\s@]+@[^\s@]+\.[^\s@]+$`.  A string matches iff it decomposes as
A ++ "@" ++ B ++ "." ++ C with A, B, C nonempty strings of `[^\s@]`
characters.  Since A contains no '@', A must be the prefix before the
first '@'; B and C may themselves contain dots, so the B/C split exists
iff the part after the '@' contains a '.' that is neither its first nor
its last character.
-/
def isValidEmail (email : String) : Bool :=
  let l := email.toList
  let localPart := l.takeWhile (fun c => c != '@')
  let atAndRest := l.dropWhile (fun c => c != '@')
  let domainPart := atAndRest.drop 1
  !atAndRest.isEmpty && !localPart.isEmpty &&
    localPart.all isEmailChar && domainPart.all isEmailChar &&
    (domainPart.drop 1).dropLast.contains '.'

/--
The phone validation regex `^\(\d{3}\) \d{3}-\d{4}$` of
FormHandler.validateField (src/script.js line 422): exactly the shape
`(DDD) DDD-DDDD` with ten ASCII digits.
-/
def isFormattedPhone (value : String) : Bool :=
  match value.toList with
  | ['(', a1, a2, a3, ')', ' ', b1, b2, b3, '-', c1, c2, c3, c4] =>
      [a1, a2, a3, b1, b2, b3, c1, c2, c3, c4].all Char.isDigit
  | _ => false

/-- The digit characters of a string, in order: the result of
`value.replace(/\D/g, '')` as a character list. -/
def digitsOf (value : String) : List Char :=
  value.toList.filter Char.isDigit

/--
The successful-match branch of formatPhoneNumber (src/script.js line 86).
On an all-digit list of length at most 10, the greedy regex
`^(\d{0,3})(\d{0,3})(\d{0,4})$` binds group 1 to the first (up to) three
digits (`phone.take 3`), group 2 to the next (up to) three
(`(phone.drop 3).take 3`), and group 3 to the rest
(`(phone.drop 3).drop 3`); the ternary chain then renders: group 2
empty -> just group 1; group 3 empty -> `(G1) G2`; otherwise
`(G1) G2-G3`.
-/
def renderPhoneGroups (phone : List Char) : String :=
  if ((phone.drop 3).take 3).isEmpty then
    String.mk (phone.take 3)
  else if ((phone.drop 3).drop 3).isEmpty then
    String.mk ('(' :: phone.take 3 ++ ')' :: ' ' :: (phone.drop 3).take 3)
  else
    String.mk ('(' :: phone.take 3 ++ ')' :: ' ' ::
      (phone.drop 3).take 3 ++ '-' :: (phone.drop 3).drop 3)

/--
formatPhoneNumber (src/script.js lines 82-89): strip all non-digits
(`value.replace(/\D/g, '')`), then match the stripped string against
`^(\d{0,3})(\d{0,3})(\d{0,4})$`.  The match succeeds exactly when at
most 10 digits remain (the string is all digits by construction), in
which case the groups are rendered by renderPhoneGroups; when the match
fails (more than 10 digits) the original input is returned unchanged.
-/
def formatPhoneNumber (value : String) : String :=
  if (digitsOf value).length ≤ 10 then renderPhoneGroups (digitsOf value)
  else value

/--
The grouping described by the spec sentence (as amended): the digits
alone up to the first breakpoint (3 digits), `(AAA) BBB` up to the
second breakpoint (6 digits), and `(AAA) BBB-CCCC` with a partial last
group beyond that.  Stated over the digit list; used to compare
formatPhoneNumber against the spec's wording.
-/
def phoneSpecGrouping (d : List Char) : String :=
  if d.length ≤ 3 then String.mk d
  else if d.length ≤ 6 then
    String.mk ('(' :: d.take 3 ++ ')' :: ' ' :: d.drop 3)
  else
    String.mk ('(' :: d.take 3 ++ ')' :: ' ' :: (d.drop 3).take 3 ++ '-' :: d.drop 6)

/--
The verdict part of FormHandler.validateField (src/script.js lines
400-434): trim the value, then run the three checks in order (required
and empty; type email, nonempty and not a valid email; name phone,
nonempty and not in canonical format), each failing check overwriting
the error message and forcing invalidity.  Returns (isValid,
errorMessage).
-/
def validateFieldVerdict (field : Field) : Bool × String :=
  let value := jsTrim field.value
  let acc : Bool × String := (true, "")
  let acc := if field.required && value == "" then
      (false, "This field is required") else acc
  let acc := if field.fieldType == "email" && value != "" && !isValidEmail value then
      (false, "Please enter a valid email address") else acc
  let acc := if field.name == "phone" && value != "" && !isFormattedPhone value then
      (false, "Please enter a valid phone number") else acc
  acc

/--
FormHandler.clearFieldError (src/script.js lines 448-454): remove the
`error` class and remove the first `.field-error` element under the
field's parent, if any (querySelector returns the first in document
order, i.e. the head of the list).
-/
def clearFieldError (field : Field) : Field :=
  { field with hasErrorClass := false, errors := field.errors.tail }

/--
FormHandler.showFieldError (src/script.js lines 436-446): add the
`error` class and append a new `.field-error` element carrying the
message.
-/
def showFieldError (field : Field) (message : String) : Field :=
  { field with hasErrorClass := true, errors := field.errors ++ [message] }

/--
FormHandler.validateField (src/script.js lines 400-434) as a state
transformer on the field: clear any existing error, compute the
verdict, show the error message when invalid, and return the validity
Bool together with the updated field.
-/
def validateField (field : Field) : Bool × Field :=
  if (validateFieldVerdict field).1 then
    (true, clearFieldError field)
  else
    (false, showFieldError (clearFieldError field) (validateFieldVerdict field).2)

/--
FormHandler.validateForm (src/script.js lines 456-467): iterate over
the fields carrying the `required` attribute (the querySelectorAll
selector picks exactly those, in document order), validate each, and
conjoin the results; fields without the attribute are not visited.
Returns the aggregate Bool and the updated field list.
-/
def validateForm : List Field → Bool × List Field
  | [] => (true, [])
  | field :: rest =>
      let tailResult := validateForm rest
      if field.required then
        let r := validateField field
        (r.1 && tailResult.1, r.2 :: tailResult.2)
      else
        (tailResult.1, field :: tailResult.2)

/-- The visible label of the submit button while a submission is in
flight (the spinner markup of src/script.js lines 528-534, abstracted
to its text). -/
def processingLabel : String := "Processing..."

/--
The pipeline-relevant page state: the form's fields, the submit
button (its captured original label, its disabled flag, its current
label), the number of network submissions started (calls to
submitToAPI), the notification banners appended to the body in order,
and whether the success modal is active.
-/
structure FormState where
  fields : List Field
  originalButtonText : String
  buttonDisabled : Bool
  buttonLabel : String
  networkCalls : Nat
  notifications : List String
  modalActive : Bool
deriving DecidableEq

/--
FormHandler.setLoadingState (src/script.js lines 523-539): disable the
button and swap in the busy label, or re-enable it and restore the
captured original label.
-/
def setLoadingState (isLoading : Bool) (s : FormState) : FormState :=
  if isLoading then
    { s with buttonDisabled := true, buttonLabel := processingLabel }
  else
    { s with buttonDisabled := false, buttonLabel := s.originalButtonText }

/--
FormHandler.showNotification (src/script.js lines 541-565): append a
notification banner to the page.
-/
def showNotification (message : String) (s : FormState) : FormState :=
  { s with notifications := s.notifications ++ [message] }

/-- form.reset() on a field: the value reverts to its (empty) default;
error decorations are not touched by reset. -/
def resetField (field : Field) : Field :=
  { field with value := "" }

/--
The synchronous prefix of FormHandler.handleSubmit (src/script.js
lines 469-492), up to and including the point where the awaited
network call (submitToAPI) is started: run validateForm; if it fails,
show the aggregate error notification and return; otherwise enter the
loading state, collect the payload (which reads but does not change
state) and start the network call.  There is no other guard before the
call.
-/
def handleSubmitStart (s : FormState) : FormState :=
  let v := validateForm s.fields
  if !v.1 then
    showNotification "Please fix the errors above" { s with fields := v.2 }
  else
    let s1 := setLoadingState true { s with fields := v.2 }
    { s1 with networkCalls := s1.networkCalls + 1 }

/--
The continuation of FormHandler.handleSubmit once the awaited call
settles (src/script.js lines 494-503): on success show the success
modal and reset the form; on rejection (or a throw reaching the catch
block) show the generic error notification; in both cases the finally
block releases the loading state.
-/
def handleSubmitFinish (success : Bool) (s : FormState) : FormState :=
  let s1 :=
    if success then
      { s with modalActive := true, fields := s.fields.map resetField }
    else
      showNotification "Something went wrong. Please try again." s
  setLoadingState false s1

/--
One complete, non-overlapped run of FormHandler.handleSubmit
(src/script.js lines 469-504), with the outcome of the awaited network
call given by the parameter: when validation fails the run ends at the
early return, otherwise it is the start prefix followed by the finish
continuation.
-/
def handleSubmit (success : Bool) (s : FormState) : FormState :=
  if (validateForm s.fields).1 then
    handleSubmitFinish success (handleSubmitStart s)
  else
    handleSubmitStart s

/-! Concrete fields and page states used to witness or refute claims. -/

/-- A required text field holding a valid value. -/
def exValidNameField : Field :=
  { name := "firstName", fieldType := "text", required := true,
    value := "John", hasErrorClass := false, errors := [] }

/-- A required text field left empty. -/
def exEmptyRequiredField : Field :=
  { name := "lastName", fieldType := "text", required := true,
    value := "", hasErrorClass := false, errors := [] }

/-- An email-typed field without the required attribute, holding a
non-empty value that is not a valid email address. -/
def exOptionalEmailField : Field :=
  { name := "email", fieldType := "email", required := false,
    value := "a@b", hasErrorClass := false, errors := [] }

/-- A required field with a valid value but a stale inline error still
displayed from an earlier validation pass. -/
def exStaleErrorField : Field :=
  { name := "firstName", fieldType := "text", required := true,
    value := "John", hasErrorClass := true,
    errors := ["This field is required"] }

/-- The same field as exStaleErrorField with a clean error display. -/
def exCleanField : Field :=
  { exStaleErrorField with hasErrorClass := false, errors := [] }

/-- A page state whose single required field is validly filled in. -/
def exIdleState : FormState :=
  { fields := [exValidNameField],
    originalButtonText := "Get My Free Analysis",
    buttonDisabled := false, buttonLabel := "Get My Free Analysis",
    networkCalls := 0, notifications := [], modalActive := false }

/-- A page state whose single required field is empty. -/
def exInvalidState : FormState :=
  { exIdleState with fields := [exEmptyRequiredField] }

/-! ## Lemmas about the phone formatter -/

theorem toList_mk (l : List Char) : (String.mk l).toList = l := rfl

theorem digitsOf_all (s : String) : ∀ c ∈ digitsOf s, Char.isDigit c = true :=
  fun _ hc => List.of_mem_filter hc

/-- Rendering the groups adds only non-digit punctuation: the digits of
the rendered string are exactly the digits that came in. -/
theorem renderPhoneGroups_digits (phone : List Char)
    (h : ∀ c ∈ phone, Char.isDigit c = true) :
    (renderPhoneGroups phone).toList.filter Char.isDigit = phone := by
  have h1 : ∀ c ∈ phone.take 3, Char.isDigit c = true :=
    fun c hc => h c (List.mem_of_mem_take hc)
  have h2 : ∀ c ∈ (phone.drop 3).take 3, Char.isDigit c = true :=
    fun c hc => h c (List.mem_of_mem_drop (List.mem_of_mem_take hc))
  have h3 : ∀ c ∈ (phone.drop 3).drop 3, Char.isDigit c = true :=
    fun c hc => h c (List.mem_of_mem_drop (List.mem_of_mem_drop hc))
  have hparen : Char.isDigit '(' = false := by decide
  have hparen2 : Char.isDigit ')' = false := by decide
  have hspace : Char.isDigit ' ' = false := by decide
  have hdash : Char.isDigit '-' = false := by decide
  unfold renderPhoneGroups
  split_ifs with e2 e3
  · have hd : phone.drop 3 = [] := by
      rcases List.take_eq_nil_iff.mp (List.isEmpty_iff.mp e2) with h0 | h0
      · omega
      · exact h0
    have hlen : phone.length ≤ 3 := List.drop_eq_nil_iff.mp hd
    rw [toList_mk, List.take_of_length_le hlen]
    exact List.filter_eq_self.mpr h
  · have hd : (phone.drop 3).take 3 = phone.drop 3 := by
      have : (phone.drop 3).drop 3 = [] := List.isEmpty_iff.mp e3
      exact List.take_of_length_le (List.drop_eq_nil_iff.mp this)
    rw [toList_mk]
    simp only [List.filter_cons, List.filter_append, hparen, hparen2, hspace,
      Bool.false_eq_true, if_false, List.filter_eq_self.mpr h1,
      List.filter_eq_self.mpr h2]
    rw [hd, List.take_append_drop]
  · rw [toList_mk]
    simp only [List.filter_cons, List.filter_append, hparen, hparen2, hspace,
      hdash, Bool.false_eq_true, if_false, List.filter_eq_self.mpr h1,
      List.filter_eq_self.mpr h2, List.filter_eq_self.mpr h3]
    rw [List.append_assoc, List.take_append_drop, List.take_append_drop]

/-- On an input with at most 10 digits, formatting preserves the digit
sequence. -/
theorem digitsOf_format (s : String) (h : (digitsOf s).length ≤ 10) :
    digitsOf (formatPhoneNumber s) = digitsOf s := by
  unfold formatPhoneNumber
  rw [if_pos h]
  exact renderPhoneGroups_digits (digitsOf s) (digitsOf_all s)

theorem formatPhoneNumber_of_le (s : String) (h : (digitsOf s).length ≤ 10) :
    formatPhoneNumber s = renderPhoneGroups (digitsOf s) := by
  unfold formatPhoneNumber
  rw [if_pos h]

theorem formatPhoneNumber_of_gt (s : String) (h : 10 < (digitsOf s).length) :
    formatPhoneNumber s = s := by
  unfold formatPhoneNumber
  rw [if_neg (by omega)]

/-- renderPhoneGroups agrees with the spec-worded grouping on every
digit list: the group-2-empty test is the 3-digit breakpoint and the
group-3-empty test is the 6-digit breakpoint. -/
theorem renderPhoneGroups_eq_spec (d : List Char) :
    renderPhoneGroups d = phoneSpecGrouping d := by
  unfold renderPhoneGroups phoneSpecGrouping
  by_cases hl3 : d.length ≤ 3
  · have hd : d.drop 3 = [] := List.drop_eq_nil_iff.mpr hl3
    rw [if_pos (by simp [hd]), if_pos hl3, List.take_of_length_le hl3]
  · by_cases hl6 : d.length ≤ 6
    · have he2 : ¬((d.drop 3).take 3).isEmpty = true := by
        simp only [List.isEmpty_iff, List.take_eq_nil_iff, List.drop_eq_nil_iff]
        omega
      have he3 : ((d.drop 3).drop 3).isEmpty = true := by
        simp only [List.isEmpty_iff, List.drop_drop, List.drop_eq_nil_iff]
        omega
      have ht : (d.drop 3).take 3 = d.drop 3 := by
        apply List.take_of_length_le
        simp only [List.length_drop]
        omega
      rw [if_neg he2, if_pos he3, if_neg hl3, if_pos hl6, ht]
    · have he2 : ¬((d.drop 3).take 3).isEmpty = true := by
        simp only [List.isEmpty_iff, List.take_eq_nil_iff, List.drop_eq_nil_iff]
        omega
      have he3 : ¬((d.drop 3).drop 3).isEmpty = true := by
        simp only [List.isEmpty_iff, List.drop_drop, List.drop_eq_nil_iff]
        omega
      rw [if_neg he2, if_neg he3, if_neg hl3, if_neg hl6, List.drop_drop]

/-! ## Lemmas about field validation -/

theorem clearFieldError_core (f : Field) : (clearFieldError f).core = f.core := rfl

theorem showFieldError_core (f : Field) (m : String) :
    (showFieldError f m).core = f.core := rfl

theorem validateField_snd_core (f : Field) :
    ((validateField f).2).core = f.core := by
  unfold validateField
  split <;> rfl

/-- The validation verdict reads only the name, type, required flag and
value of the field, never its UI error state. -/
theorem validateFieldVerdict_congr (f g : Field) (h : f.core = g.core) :
    validateFieldVerdict f = validateFieldVerdict g := by
  have h1 : f.name = g.name := congrArg (fun p => p.1) h
  have h2 : f.fieldType = g.fieldType := congrArg (fun p => p.2.1) h
  have h3 : f.required = g.required := congrArg (fun p => p.2.2.1) h
  have h4 : f.value = g.value := congrArg (fun p => p.2.2.2) h
  unfold validateFieldVerdict
  rw [h1, h2, h3, h4]

theorem validateField_fst (f : Field) :
    (validateField f).1 = (validateFieldVerdict f).1 := by
  unfold validateField
  split <;> simp_all

theorem validateField_fst_congr (f g : Field) (h : f.core = g.core) :
    (validateField f).1 = (validateField g).1 := by
  rw [validateField_fst, validateField_fst, validateFieldVerdict_congr f g h]

theorem validateField_snd_value (f : Field) :
    ((validateField f).2).value = f.value :=
  congrArg (fun p => p.2.2.2) (validateField_snd_core f)

theorem validateField_snd_required (f : Field) :
    ((validateField f).2).required = f.required :=
  congrArg (fun p => p.2.2.1) (validateField_snd_core f)

theorem tail_eq_nil_of_length_le_one {α : Type} {l : List α}
    (h : l.length ≤ 1) : l.tail = [] := by
  cases l with
  | nil => rfl
  | cons a t =>
      simp only [List.length_cons] at h
      simpa using List.length_eq_zero.mp (by omega)

/-- Running validateField on the field it just produced changes
nothing, provided the field carried at most one stale inline error to
begin with (the invariant the handler maintains, since every
showFieldError is preceded by a clearFieldError). -/
theorem validateField_validateField (f : Field) (h : f.errors.tail = []) :
    validateField ((validateField f).2) = validateField f := by
  by_cases hb : (validateFieldVerdict f).1 = true
  · have e1 : validateField f = (true, clearFieldError f) := by
      unfold validateField
      rw [if_pos hb]
    have hv2 : validateFieldVerdict (clearFieldError f) = validateFieldVerdict f :=
      validateFieldVerdict_congr _ _ (clearFieldError_core f)
    have hcc : clearFieldError (clearFieldError f) = clearFieldError f := by
      unfold clearFieldError
      simp [h]
    rw [e1]
    show validateField (clearFieldError f) = (true, clearFieldError f)
    unfold validateField
    rw [hv2, if_pos hb, hcc]
  · have e1 : validateField f =
        (false, showFieldError (clearFieldError f) (validateFieldVerdict f).2) := by
      unfold validateField
      rw [if_neg hb]
    have hv2 : validateFieldVerdict
          (showFieldError (clearFieldError f) (validateFieldVerdict f).2) =
        validateFieldVerdict f :=
      validateFieldVerdict_congr _ _ rfl
    rw [e1]
    show validateField (showFieldError (clearFieldError f) (validateFieldVerdict f).2) =
      (false, showFieldError (clearFieldError f) (validateFieldVerdict f).2)
    unfold validateField
    rw [hv2, if_neg hb]
    unfold showFieldError clearFieldError
    simp [h]

/-- The aggregate verdict of validateForm is the conjunction of the
per-field verdicts over exactly the required fields. -/
theorem validateForm_fst (fields : List Field) :
    (validateForm fields).1 =
      fields.all (fun f => !f.required || (validateField f).1) := by
  induction fields with
  | nil => rfl
  | cons f rest ih =>
      by_cases hr : f.required = true <;>
        simp [validateForm, hr, ih]

/-- The field list produced by validateForm: required fields are run
through validateField, all others pass through untouched. -/
theorem validateForm_snd (fields : List Field) :
    (validateForm fields).2 =
      fields.map (fun f => if f.required then (validateField f).2 else f) := by
  induction fields with
  | nil => rfl
  | cons f rest ih =>
      by_cases hr : f.required = true <;>
        simp [validateForm, hr, ih]

/-- validateForm never changes any field's value. -/
theorem validateForm_value (fields : List Field) :
    ((validateForm fields).2).map Field.value = fields.map Field.value := by
  rw [validateForm_snd, List.map_map]
  congr 1
  funext f
  by_cases hr : f.required = true <;>
    simp [Function.comp, hr, validateField_snd_value]

/-- Re-running validateForm on its own output yields the same aggregate
verdict (field values and specs are untouched by the first pass). -/
theorem validateForm_fst_stable (fields : List Field) :
    (validateForm ((validateForm fields).2)).1 = (validateForm fields).1 := by
  rw [validateForm_fst, validateForm_fst, validateForm_snd, List.all_map]
  congr 1
  funext f
  by_cases hr : f.required = true
  · simp only [Function.comp_apply, hr, if_true]
    rw [validateField_snd_required, validateField_fst_congr _ _ (validateField_snd_core f), hr]
  · simp [Function.comp, hr]

/-- validateForm is idempotent on the whole form state when every
required field starts with at most one stale inline error. -/
theorem validateForm_idem (fields : List Field)
    (h : ∀ f ∈ fields, f.required = true → f.errors.tail = []) :
    validateForm ((validateForm fields).2) = validateForm fields := by
  induction fields with
  | nil => rfl
  | cons f rest ih =>
      have hf := h f (List.mem_cons_self f rest)
      have hrest : ∀ g ∈ rest, g.required = true → g.errors.tail = [] :=
        fun g hg => h g (List.mem_cons_of_mem f hg)
      have ihh := ih hrest
      by_cases hr : f.required = true
      · have hreq2 : ((validateField f).2).required = true := by
          rw [validateField_snd_required]
          exact hr
        have hvv := validateField_validateField f (hf hr)
        simp [validateForm, hr, hreq2, hvv, ihh]
      · simp [validateForm, hr, ihh]

/-! ## Lemmas about the submission pipeline -/

theorem handleSubmit_of_valid (b : Bool) (s : FormState)
    (h : (validateForm s.fields).1 = true) :
    handleSubmit b s = handleSubmitFinish b (handleSubmitStart s) := by
  unfold handleSubmit
  rw [if_pos h]

theorem handleSubmit_of_invalid (b : Bool) (s : FormState)
    (h : (validateForm s.fields).1 = false) :
    handleSubmit b s = handleSubmitStart s := by
  unfold handleSubmit
  rw [if_neg (by simp [h])]

theorem handleSubmitStart_of_valid (s : FormState)
    (h : (validateForm s.fields).1 = true) :
    handleSubmitStart s =
      { s with fields := (validateForm s.fields).2,
               buttonDisabled := true, buttonLabel := processingLabel,
               networkCalls := s.networkCalls + 1 } := by
  simp [handleSubmitStart, setLoadingState, h]

theorem handleSubmitStart_of_invalid (s : FormState)
    (h : (validateForm s.fields).1 = false) :
    handleSubmitStart s =
      showNotification "Please fix the errors above"
        { s with fields := (validateForm s.fields).2 } := by
  simp [handleSubmitStart, h]

theorem handleSubmitFinish_button (b : Bool) (s : FormState) :
    (handleSubmitFinish b s).buttonDisabled = false ∧
    (handleSubmitFinish b s).buttonLabel = s.originalButtonText ∧
    (handleSubmitFinish b s).originalButtonText = s.originalButtonText := by
  cases b <;> simp [handleSubmitFinish, setLoadingState, showNotification]

theorem handleSubmitStart_orig (s : FormState) :
    (handleSubmitStart s).originalButtonText = s.originalButtonText := by
  by_cases h : (validateForm s.fields).1 = true <;>
    simp [handleSubmitStart, setLoadingState, showNotification, h]

/-! ## The claims -/

/-- C1 (counterexample): handleSubmit has no re-entrancy guard.  From a
state whose fields validate, invoking the synchronous prefix of
handleSubmit a second time while the first submission is still
unresolved starts a second network call and is not a no-op. -/
theorem c1_counterexample :
    (handleSubmitStart (handleSubmitStart exIdleState)).networkCalls = 2 ∧
    handleSubmitStart (handleSubmitStart exIdleState) ≠ handleSubmitStart exIdleState := by
  decide

/-- C1 (amended): while a submission is in flight the trigger button is
disabled (the only re-entrancy protection), but a second direct
invocation of handleSubmit while the first is unresolved re-validates
and starts a second network call: two overlapping submit attempts make
two network calls. -/
theorem c1_amended_no_guard (s : FormState)
    (h : (validateForm s.fields).1 = true) :
    (handleSubmitStart s).buttonDisabled = true ∧
    (handleSubmitStart s).buttonLabel = processingLabel ∧
    (handleSubmitStart (handleSubmitStart s)).networkCalls = s.networkCalls + 2 := by
  have h2 : (validateForm (handleSubmitStart s).fields).1 = true := by
    rw [handleSubmitStart_of_valid s h]
    show (validateForm ((validateForm s.fields).2)).1 = true
    rw [validateForm_fst_stable]
    exact h
  rw [handleSubmitStart_of_valid _ h2, handleSubmitStart_of_valid s h]
  exact ⟨rfl, rfl, rfl⟩

theorem c1_amended_witness :
    (validateForm exIdleState.fields).1 = true ∧
    (handleSubmitStart (handleSubmitStart exIdleState)).networkCalls =
      exIdleState.networkCalls + 2 :=
  ⟨by decide, (c1_amended_no_guard exIdleState (by decide)).2.2⟩

/-- C2 (counterexample): on an input with more than 10 digits,
formatPhoneNumber does not truncate to 10 digits: it returns the input
unchanged, digits 11 and up included; and the spec's example
"555" -> "(555) " fails: three digits are rendered without
punctuation. -/
theorem c2_counterexample :
    formatPhoneNumber "55512345678" = "55512345678" ∧
    (digitsOf (formatPhoneNumber "55512345678")).length = 11 ∧
    formatPhoneNumber "555" = "555" := by
  decide

/-- C2 (amended): on every input with at most 10 digits,
formatPhoneNumber renders exactly those digits with punctuation at the
breakpoints 3 and 6 (digits alone up to 3, `(AAA) BBB` up to 6, and
`(AAA) BBB-CCCC` with a partial last group up to 10), preserving the
digit sequence; inputs with more than 10 digits are returned
unchanged, not truncated (that case is claim C10). -/
theorem c2_amended_formatPhone (s : String)
    (h : (digitsOf s).length ≤ 10) :
    formatPhoneNumber s = phoneSpecGrouping (digitsOf s) ∧
    digitsOf (formatPhoneNumber s) = digitsOf s := by
  refine ⟨?_, digitsOf_format s h⟩
  rw [formatPhoneNumber_of_le s h, renderPhoneGroups_eq_spec]

theorem c2_amended_witness :
    (digitsOf "5551234").length ≤ 10 ∧
    formatPhoneNumber "5551234" = phoneSpecGrouping (digitsOf "5551234") :=
  ⟨by decide, (c2_amended_formatPhone "5551234" (by decide)).1⟩

/-- C3 (counterexample): validateForm does not validate email (or
phone) fields that lack the required attribute, even when their value
is non-empty: a form whose only field is a non-required email input
with the invalid non-empty value "a@b" passes validateForm although
validateField rejects that field. -/
theorem c3_counterexample :
    exOptionalEmailField.fieldType = "email" ∧
    exOptionalEmailField.required = false ∧
    jsTrim exOptionalEmailField.value ≠ "" ∧
    (validateField exOptionalEmailField).1 = false ∧
    (validateForm [exOptionalEmailField]).1 = true := by
  decide

/-- C3 (amended): validateForm runs validateField over exactly the
fields flagged required (email/phone fields without the required flag
are skipped and left untouched), and returns true iff every required
field's validateField result is valid. -/
theorem c3_amended_validateForm (fields : List Field) :
    (validateForm fields).1 =
      fields.all (fun f => !f.required || (validateField f).1) ∧
    (validateForm fields).2 =
      fields.map (fun f => if f.required then (validateField f).2 else f) :=
  ⟨validateForm_fst fields, validateForm_snd fields⟩

/-- C4 (counterexample): validateField is not free of UI side effects:
on a field carrying a stale inline error, it changes the field's UI
state (it clears the error display). -/
theorem c4_counterexample :
    (validateField exStaleErrorField).2 ≠ exStaleErrorField := by
  decide

/-- C4 (amended): the validity verdict of validateField is a pure
function of the field's name, type, required flag and value (never of
its UI state), but validateField does update the UI state: it always
removes the first stale inline error and the error class, and when the
verdict is invalid it sets the error class and appends an inline error
message. -/
theorem c4_amended_validateField (f g : Field)
    (h1 : f.name = g.name) (h2 : f.fieldType = g.fieldType)
    (h3 : f.required = g.required) (h4 : f.value = g.value) :
    (validateField f).1 = (validateField g).1 ∧
    ((validateField f).2).hasErrorClass = !(validateField f).1 ∧
    ((validateField f).2).errors =
      (if (validateField f).1 then f.errors.tail
       else f.errors.tail ++ [(validateFieldVerdict f).2]) := by
  have hc : f.core = g.core := by
    unfold Field.core
    rw [h1, h2, h3, h4]
  refine ⟨validateField_fst_congr f g hc, ?_⟩
  by_cases hb : (validateFieldVerdict f).1 = true
  · have e1 : validateField f = (true, clearFieldError f) := by
      unfold validateField
      rw [if_pos hb]
    rw [e1]
    simp [clearFieldError]
  · have e1 : validateField f =
        (false, showFieldError (clearFieldError f) (validateFieldVerdict f).2) := by
      unfold validateField
      rw [if_neg hb]
    rw [e1]
    simp [showFieldError, clearFieldError]

theorem c4_amended_witness :
    exStaleErrorField.value = exCleanField.value ∧
    (validateField exStaleErrorField).1 = (validateField exCleanField).1 :=
  ⟨rfl, (c4_amended_validateField exStaleErrorField exCleanField rfl rfl rfl rfl).1⟩

/-- C5: when validateForm fails, handleSubmit makes no network call,
leaves the button and modal untouched, appends exactly the aggregate
"Please fix the errors above" notification, and every required field
that failed validation displays the error class and an inline error
(in the total embedding, no exception is involved). -/
theorem c5_validation_failure_blocks_submit (s : FormState) (b : Bool)
    (h : (validateForm s.fields).1 = false) :
    (handleSubmit b s).networkCalls = s.networkCalls ∧
    (handleSubmit b s).buttonDisabled = s.buttonDisabled ∧
    (handleSubmit b s).buttonLabel = s.buttonLabel ∧
    (handleSubmit b s).modalActive = s.modalActive ∧
    (handleSubmit b s).notifications =
      s.notifications ++ ["Please fix the errors above"] ∧
    ∀ f ∈ (handleSubmit b s).fields, f.required = true →
      (validateField f).1 = false →
      f.hasErrorClass = true ∧ f.errors ≠ [] := by
  rw [handleSubmit_of_invalid b s h, handleSubmitStart_of_invalid s h]
  refine ⟨rfl, rfl, rfl, rfl, rfl, ?_⟩
  intro f hf hreq hval
  have hf2 : f ∈ (validateForm s.fields).2 := hf
  rw [validateForm_snd] at hf2
  obtain ⟨g, hg, hgf⟩ := List.mem_map.mp hf2
  by_cases hgr : g.required = true
  · rw [if_pos hgr] at hgf
    subst hgf
    rw [validateField_fst_congr _ _ (validateField_snd_core g)] at hval
    have hb : ¬((validateFieldVerdict g).1 = true) := by
      rw [validateField_fst] at hval
      simp [hval]
    have e1 : validateField g =
        (false, showFieldError (clearFieldError g) (validateFieldVerdict g).2) := by
      unfold validateField
      rw [if_neg hb]
    rw [e1]
    exact ⟨rfl, by simp [showFieldError]⟩
  · rw [if_neg hgr] at hgf
    subst hgf
    exact absurd hreq hgr

theorem c5_witness :
    (validateForm exInvalidState.fields).1 = false ∧
    (handleSubmit true exInvalidState).networkCalls = exInvalidState.networkCalls ∧
    (handleSubmit true exInvalidState).notifications =
      exInvalidState.notifications ++ ["Please fix the errors above"] :=
  ⟨by decide,
    (c5_validation_failure_blocks_submit exInvalidState true (by decide)).1,
    (c5_validation_failure_blocks_submit exInvalidState true (by decide)).2.2.2.2.1⟩

/-- C6: for every submission that begins (validation passed), the
finally-style cleanup runs whatever the outcome of the awaited call,
so the trigger button ends re-enabled with its captured original
label. -/
theorem c6_button_always_restored (s : FormState) (b : Bool)
    (h : (validateForm s.fields).1 = true) :
    (handleSubmit b s).buttonDisabled = false ∧
    (handleSubmit b s).buttonLabel = s.originalButtonText ∧
    (handleSubmit b s).originalButtonText = s.originalButtonText := by
  rw [handleSubmit_of_valid b s h]
  obtain ⟨d, l, o⟩ := handleSubmitFinish_button b (handleSubmitStart s)
  exact ⟨d, by rw [l, handleSubmitStart_orig], by rw [o, handleSubmitStart_orig]⟩

theorem c6_witness :
    (validateForm exIdleState.fields).1 = true ∧
    (handleSubmit false exIdleState).buttonDisabled = false ∧
    (handleSubmit false exIdleState).buttonLabel = exIdleState.originalButtonText :=
  ⟨by decide,
    (c6_button_always_restored exIdleState false (by decide)).1,
    (c6_button_always_restored exIdleState false (by decide)).2.1⟩

/-- C7: when the submission call fails, exactly one generic error
notification is appended, the success modal is not shown, and every
field keeps its entered value (the form is not reset). -/
theorem c7_transport_failure_keeps_values (s : FormState)
    (h : (validateForm s.fields).1 = true) :
    ((handleSubmit false s).fields).map Field.value = s.fields.map Field.value ∧
    (handleSubmit false s).notifications =
      s.notifications ++ ["Something went wrong. Please try again."] ∧
    (handleSubmit false s).modalActive = s.modalActive := by
  rw [handleSubmit_of_valid false s h, handleSubmitStart_of_valid s h]
  unfold handleSubmitFinish showNotification setLoadingState
  simp [validateForm_value]

theorem c7_witness :
    (validateForm exIdleState.fields).1 = true ∧
    ((handleSubmit false exIdleState).fields).map Field.value =
      exIdleState.fields.map Field.value ∧
    (handleSubmit false exIdleState).notifications =
      exIdleState.notifications ++ ["Something went wrong. Please try again."] :=
  ⟨by decide,
    (c7_transport_failure_keeps_values exIdleState (by decide)).1,
    (c7_transport_failure_keeps_values exIdleState (by decide)).2.1⟩

/-- C8: validateForm is idempotent with respect to UI state: run twice
on unchanged field values, the second run returns the same verdict and
leaves the exact same field UI state as the first, given the invariant
the handler maintains that each required field displays at most one
inline error. -/
theorem c8_validateAll_idempotent (fields : List Field)
    (h : ∀ f ∈ fields, f.required = true → f.errors.length ≤ 1) :
    validateForm ((validateForm fields).2) = validateForm fields :=
  validateForm_idem fields (fun f hf hr => tail_eq_nil_of_length_le_one (h f hf hr))

theorem c8_witness :
    exStaleErrorField.errors.length ≤ 1 ∧
    validateForm ((validateForm [exStaleErrorField, exOptionalEmailField]).2) =
      validateForm [exStaleErrorField, exOptionalEmailField] :=
  ⟨by decide,
    c8_validateAll_idempotent [exStaleErrorField, exOptionalEmailField] (by decide)⟩

/-- C9: formatPhoneNumber is idempotent on every string: applied to its
own output it returns that output unchanged.  (At most 10 digits the
second pass re-renders the same digit sequence; above 10 digits both
passes return the input untouched.) -/
theorem c9_formatPhone_idempotent (s : String) :
    formatPhoneNumber (formatPhoneNumber s) = formatPhoneNumber s := by
  by_cases h : (digitsOf s).length ≤ 10
  · have h2 : (digitsOf (formatPhoneNumber s)).length ≤ 10 := by
      rw [digitsOf_format s h]
      exact h
    rw [formatPhoneNumber_of_le _ h2, digitsOf_format s h, formatPhoneNumber_of_le s h]
  · rw [formatPhoneNumber_of_gt s (by omega)]
    exact formatPhoneNumber_of_gt s (by omega)

/-- C10: every input with more than 10 digit characters is returned by
formatPhoneNumber completely unchanged: no punctuation is applied and
nothing is truncated (the regex with capped group sizes fails to match
and the fallback returns the original value). -/
theorem c10_long_input_unchanged (s : String)
    (h : 10 < (digitsOf s).length) :
    formatPhoneNumber s = s :=
  formatPhoneNumber_of_gt s h

theorem c10_witness :
    10 < (digitsOf "1234567890123").length ∧
    formatPhoneNumber "1234567890123" = "1234567890123" :=
  ⟨by decide, c10_long_input_unchanged "1234567890123" (by decide)⟩

end CreditFix
